import Mathlib

/-!
Verification of the GPU memory prober (`cuda_devices`), the character
tokenizer lambda of `CharacterEncoder.__init__`, and the `pad` batching
helper from `lib/utils.py` and `lib/text_encoders/character_encoder.py`
of the Simple-QA-EMNLP-2018 repository.

The native CUDA driver is modelled as an oracle (`Driver`) supplying the
status code and output of every foreign call.  `cuda_devices` is embedded
as a function of that oracle returning either a Python exception or the
list of qualifying device indices together with the trace of native calls
made, in order.  Python floats are modelled by exact rational comparison
(the comparison `free/total > 0.98` is monotone under IEEE rounding, so
the direction proved here is unaffected by the float representation).
-/

/-- Python exceptions that the embedded code can raise. -/
inductive PyErr where
  | zeroDivisionError
  | attributeError
  | valueError
deriving DecidableEq, Repr

/-- Native driver entry points invoked by `cuda_devices`, tagged with the
device index of the loop iteration (or the failing status code for the
error-string lookup).  A value of this type is one foreign call event. -/
inductive CudaCall where
  | cuInit
  | cuDeviceGetCount
  | cuDeviceGet (i : Nat)
  | cuCtxCreate (i : Nat)
  | cuMemGetInfo (i : Nat)
  | cuCtxDetach (i : Nat)
  | cuGetErrorString (code : Nat)
deriving DecidableEq, Repr

/-- Oracle for one probing session: which candidate library names load,
and the status code / output of each native call.  Per-device calls are
functions of the device index; `errorString` models `cuGetErrorString`
writing a pointer (`none` models the pointer being left NULL, in which
case Python's `error.value` is `None` and `.decode()` raises). -/
structure Driver where
  loads : String → Bool
  initStatus : Nat
  countStatus : Nat
  count : Nat
  deviceGetStatus : Nat → Nat
  ctxCreateStatus : Nat → Nat
  memStatus : Nat → Nat
  freeMem : Nat → Nat
  totalMem : Nat → Nat
  errorString : Nat → Option String

/-- The success constant taken from cuda.h in the source: CUDA_SUCCESS = 0. -/
def CUDA_SUCCESS : Nat := 0

/-- The fixed candidate library names probed in order:
`('libcuda.so', 'libcuda.dylib', 'cuda.dll')`. -/
def cudaLibNames : List String := ["libcuda.so", "libcuda.dylib", "cuda.dll"]

/-- Embedding of the inner `run` helper: performs the native call `c`
(whose status the oracle gives as `status`), returns `true` on success;
on a non-success status it looks up the driver error string and logs a
warning (raising `AttributeError` if the driver provides no string,
since then `error.value` is `None` and `.decode()` fails).  The list is
the trace of native calls made.  Note the `result` parameter of the
Python `run` is shadowed by `result = func(*args)` before ever being
read, so it does not appear here. -/
def runCall (d : Driver) (c : CudaCall) (status : Nat) :
    Except PyErr (Bool × List CudaCall) :=
  if status = CUDA_SUCCESS then Except.ok (true, [c])
  else
    match d.errorString status with
    | some _ => Except.ok (false, [c, CudaCall.cuGetErrorString status])
    | none => Except.error PyErr.attributeError

/-- One iteration of the per-device loop of `cuda_devices` for device `i`:
`cuDeviceGet` (called twice, as in the source), `cuCtxCreate`,
`cuMemGetInfo`, short-circuiting to `continue` (result `false`, no
detach) on the first failure; on full success it computes
`free/total` (raising `ZeroDivisionError` when `total = 0`), appends the
device iff the fraction exceeds 0.98 (modelled exactly:
`100 * free > 98 * total`), and detaches the context.  The boolean is
whether `i` was appended; the list is the trace of native calls. -/
def deviceStep (d : Driver) (i : Nat) : Except PyErr (Bool × List CudaCall) :=
  match runCall d (CudaCall.cuDeviceGet i) (d.deviceGetStatus i) with
  | Except.error e => Except.error e
  | Except.ok (false, t1) => Except.ok (false, t1)
  | Except.ok (true, t1) =>
    match runCall d (CudaCall.cuDeviceGet i) (d.deviceGetStatus i) with
    | Except.error e => Except.error e
    | Except.ok (false, t2) => Except.ok (false, t1 ++ t2)
    | Except.ok (true, t2) =>
      match runCall d (CudaCall.cuCtxCreate i) (d.ctxCreateStatus i) with
      | Except.error e => Except.error e
      | Except.ok (false, t3) => Except.ok (false, t1 ++ t2 ++ t3)
      | Except.ok (true, t3) =>
        match runCall d (CudaCall.cuMemGetInfo i) (d.memStatus i) with
        | Except.error e => Except.error e
        | Except.ok (false, t4) => Except.ok (false, t1 ++ t2 ++ t3 ++ t4)
        | Except.ok (true, t4) =>
          if d.totalMem i = 0 then Except.error PyErr.zeroDivisionError
          else
            Except.ok (decide (100 * d.freeMem i > 98 * d.totalMem i),
              t1 ++ t2 ++ t3 ++ t4 ++ [CudaCall.cuCtxDetach i])

/-- Whether device `i` ends up appended to the result (false when its
iteration skips, drops it below the threshold, or raises). -/
def appendedB (d : Driver) (i : Nat) : Bool :=
  match deviceStep d i with
  | Except.ok (b, _) => b
  | Except.error _ => false

/-- The `for i in range(num_gpu.value)` loop of `cuda_devices` over a
list of device indices, accumulating appended indices and the call
trace in iteration order. -/
def deviceLoop (d : Driver) : List Nat → Except PyErr (List Nat × List CudaCall)
  | [] => Except.ok ([], [])
  | i :: rest =>
    match deviceStep d i with
    | Except.error e => Except.error e
    | Except.ok (b, ti) =>
      match deviceLoop d rest with
      | Except.error e => Except.error e
      | Except.ok (r, t) => Except.ok ((if b then i :: r else r), ti ++ t)

/-- Embedding of `cuda_devices` (the uncached body).  It tries the three
candidate library names; if none loads it returns `[]` having made no
native call.  Otherwise it calls `cuInit(0)` — whose status the source
stores in `result` but never checks, because the `run` helper shadows its
`result` parameter — then checks `cuDeviceGetCount` through `run`
(returning `[]` on failure) and runs the per-device loop over
`range(count)`.  Returns the accumulated indices and the native-call
trace. -/
def cuda_devices (d : Driver) : Except PyErr (List Nat × List CudaCall) :=
  if (cudaLibNames.any d.loads) = false then Except.ok ([], [])
  else
    match runCall d CudaCall.cuDeviceGetCount d.countStatus with
    | Except.error e => Except.error e
    | Except.ok (false, tc) => Except.ok ([], CudaCall.cuInit :: tc)
    | Except.ok (true, tc) =>
      match deviceLoop d (List.range d.count) with
      | Except.error e => Except.error e
      | Except.ok (r, t) => Except.ok (r, CudaCall.cuInit :: (tc ++ t))

/-- Embedding of `functools.lru_cache(maxsize=1)` applied to the
no-argument `cuda_devices`: the cache holds at most the single memoized
return value; a cache hit returns it making no native call; `lru_cache`
does not cache a raising call.  Returns (call result, new cache state,
trace of native calls made by this invocation). -/
def callMemo (cache : Option (List Nat)) (d : Driver) :
    Except PyErr (List Nat) × Option (List Nat) × List CudaCall :=
  match cache with
  | some r => (Except.ok r, some r, [])
  | none =>
    match cuda_devices d with
    | Except.ok (r, t) => (Except.ok r, some r, t)
    | Except.error e => (Except.error e, none, [])

/-- Embedding of Python's `str.split(sep)` with an explicit separator:
raises `ValueError` (empty separator) when `sep` is the empty string,
otherwise splits on occurrences of the separator. -/
def pySplit (s sep : String) : Except PyErr (List String) :=
  if sep = "" then Except.error PyErr.valueError
  else Except.ok (s.splitOn sep)

/-- The tokenize callable installed by `CharacterEncoder.__init__`:
`lambda s: s.split('')`. -/
def characterEncoderTokenize (s : String) : Except PyErr (List String) :=
  pySplit s ("")

/-- Constant PADDING_INDEX, imported from `lib.text_encoders` whose package
module is not among the sources; the claims checked here do not depend
on its value, so it is fixed to the conventional 0. -/
def PADDING_INDEX : Int := 0

/-- Embedding of `pad`: rows are 1-D integer tensors.  It computes the
row lengths, takes their maximum (Python's `max` raises `ValueError` on
an empty list), and pads each row on the right with
`max_len - len(row)` copies of `PADDING_INDEX` (`torch.cat` is list
append).  Despite its docstring, it performs no sorting. -/
def pad (batch : List (List Int)) : Except PyErr (List (List Int) × List Nat) :=
  let lengths := batch.map List.length
  match lengths with
  | [] => Except.error PyErr.valueError
  | len0 :: rest =>
    let max_len := rest.foldl max len0
    Except.ok
      (batch.map (fun row =>
        row ++ List.replicate (max_len - row.length) PADDING_INDEX),
       lengths)

/-- A driver with four devices where devices 0 and 3 have 99% free
memory and devices 1 and 2 only 50%; every call succeeds. -/
def dGood : Driver where
  loads := fun s => s == "libcuda.so"
  initStatus := 0
  countStatus := 0
  count := 4
  deviceGetStatus := fun _ => 0
  ctxCreateStatus := fun _ => 0
  memStatus := fun _ => 0
  freeMem := fun i => if i = 0 ∨ i = 3 then 99 else 50
  totalMem := fun _ => 100
  errorString := fun _ => some ("error")

/-- Three devices, all qualifying (99% free), every call succeeding. -/
def dAll3 : Driver where
  loads := fun s => s == "libcuda.so"
  initStatus := 0
  countStatus := 0
  count := 3
  deviceGetStatus := fun _ => 0
  ctxCreateStatus := fun _ => 0
  memStatus := fun _ => 0
  freeMem := fun _ => 99
  totalMem := fun _ => 100
  errorString := fun _ => some ("error")

/-- Same as `dAll3` except device 1's memory query fails (status 1). -/
def dFail1 : Driver where
  loads := fun s => s == "libcuda.so"
  initStatus := 0
  countStatus := 0
  count := 3
  deviceGetStatus := fun _ => 0
  ctxCreateStatus := fun _ => 0
  memStatus := fun i => if i = 1 then 1 else 0
  freeMem := fun _ => 99
  totalMem := fun _ => 100
  errorString := fun _ => some ("error")

/-- One device whose context is created but whose memory query fails. -/
def dLeak : Driver where
  loads := fun s => s == "libcuda.so"
  initStatus := 0
  countStatus := 0
  count := 1
  deviceGetStatus := fun _ => 0
  ctxCreateStatus := fun _ => 0
  memStatus := fun _ => 1
  freeMem := fun _ => 99
  totalMem := fun _ => 100
  errorString := fun _ => some ("out of memory")

/-- One device reporting `total_memory = 0` on a successful query. -/
def dZero : Driver where
  loads := fun s => s == "libcuda.so"
  initStatus := 0
  countStatus := 0
  count := 1
  deviceGetStatus := fun _ => 0
  ctxCreateStatus := fun _ => 0
  memStatus := fun _ => 0
  freeMem := fun _ => 0
  totalMem := fun _ => 0
  errorString := fun _ => some ("error")

/-- `cuInit` reports failure (status 1) but every subsequent call
succeeds and the single device qualifies. -/
def dInitFail : Driver where
  loads := fun s => s == "libcuda.so"
  initStatus := 1
  countStatus := 0
  count := 1
  deviceGetStatus := fun _ => 0
  ctxCreateStatus := fun _ => 0
  memStatus := fun _ => 0
  freeMem := fun _ => 99
  totalMem := fun _ => 100
  errorString := fun _ => some ("error")

/-- A machine where none of the three candidate library names loads. -/
def dNoLib : Driver where
  loads := fun _ => false
  initStatus := 0
  countStatus := 0
  count := 5
  deviceGetStatus := fun _ => 0
  ctxCreateStatus := fun _ => 0
  memStatus := fun _ => 0
  freeMem := fun _ => 99
  totalMem := fun _ => 100
  errorString := fun _ => some ("error")

/-- The native-call trace of `cuda_devices dGood`. -/
def traceGood : List CudaCall :=
  [CudaCall.cuInit, CudaCall.cuDeviceGetCount,
   CudaCall.cuDeviceGet 0, CudaCall.cuDeviceGet 0, CudaCall.cuCtxCreate 0,
   CudaCall.cuMemGetInfo 0, CudaCall.cuCtxDetach 0,
   CudaCall.cuDeviceGet 1, CudaCall.cuDeviceGet 1, CudaCall.cuCtxCreate 1,
   CudaCall.cuMemGetInfo 1, CudaCall.cuCtxDetach 1,
   CudaCall.cuDeviceGet 2, CudaCall.cuDeviceGet 2, CudaCall.cuCtxCreate 2,
   CudaCall.cuMemGetInfo 2, CudaCall.cuCtxDetach 2,
   CudaCall.cuDeviceGet 3, CudaCall.cuDeviceGet 3, CudaCall.cuCtxCreate 3,
   CudaCall.cuMemGetInfo 3, CudaCall.cuCtxDetach 3]

/-- The native-call trace of `cuda_devices dAll3`. -/
def traceAll3 : List CudaCall :=
  [CudaCall.cuInit, CudaCall.cuDeviceGetCount,
   CudaCall.cuDeviceGet 0, CudaCall.cuDeviceGet 0, CudaCall.cuCtxCreate 0,
   CudaCall.cuMemGetInfo 0, CudaCall.cuCtxDetach 0,
   CudaCall.cuDeviceGet 1, CudaCall.cuDeviceGet 1, CudaCall.cuCtxCreate 1,
   CudaCall.cuMemGetInfo 1, CudaCall.cuCtxDetach 1,
   CudaCall.cuDeviceGet 2, CudaCall.cuDeviceGet 2, CudaCall.cuCtxCreate 2,
   CudaCall.cuMemGetInfo 2, CudaCall.cuCtxDetach 2]

/-- The native-call trace of `cuda_devices dFail1`: device 1's failed
memory query is followed by the error-string lookup, with no detach. -/
def traceFail1 : List CudaCall :=
  [CudaCall.cuInit, CudaCall.cuDeviceGetCount,
   CudaCall.cuDeviceGet 0, CudaCall.cuDeviceGet 0, CudaCall.cuCtxCreate 0,
   CudaCall.cuMemGetInfo 0, CudaCall.cuCtxDetach 0,
   CudaCall.cuDeviceGet 1, CudaCall.cuDeviceGet 1, CudaCall.cuCtxCreate 1,
   CudaCall.cuMemGetInfo 1, CudaCall.cuGetErrorString 1,
   CudaCall.cuDeviceGet 2, CudaCall.cuDeviceGet 2, CudaCall.cuCtxCreate 2,
   CudaCall.cuMemGetInfo 2, CudaCall.cuCtxDetach 2]

/-- The native-call trace of `cuda_devices dLeak`. -/
def traceLeak : List CudaCall :=
  [CudaCall.cuInit, CudaCall.cuDeviceGetCount,
   CudaCall.cuDeviceGet 0, CudaCall.cuDeviceGet 0, CudaCall.cuCtxCreate 0,
   CudaCall.cuMemGetInfo 0, CudaCall.cuGetErrorString 1]

/-- The native-call trace of `cuda_devices dInitFail`. -/
def traceInitFail : List CudaCall :=
  [CudaCall.cuInit, CudaCall.cuDeviceGetCount,
   CudaCall.cuDeviceGet 0, CudaCall.cuDeviceGet 0, CudaCall.cuCtxCreate 0,
   CudaCall.cuMemGetInfo 0, CudaCall.cuCtxDetach 0]

theorem stepEq_success (d : Driver) (i : Nat)
    (h1 : d.deviceGetStatus i = CUDA_SUCCESS) (h2 : d.ctxCreateStatus i = CUDA_SUCCESS)
    (h3 : d.memStatus i = CUDA_SUCCESS) (h4 : d.totalMem i ≠ 0) :
    deviceStep d i =
      Except.ok (decide (100 * d.freeMem i > 98 * d.totalMem i),
        [CudaCall.cuDeviceGet i, CudaCall.cuDeviceGet i, CudaCall.cuCtxCreate i,
         CudaCall.cuMemGetInfo i, CudaCall.cuCtxDetach i]) := by
  simp [deviceStep, runCall, h1, h2, h3, h4]

theorem stepEq_zeroTotal (d : Driver) (i : Nat)
    (h1 : d.deviceGetStatus i = CUDA_SUCCESS) (h2 : d.ctxCreateStatus i = CUDA_SUCCESS)
    (h3 : d.memStatus i = CUDA_SUCCESS) (h4 : d.totalMem i = 0) :
    deviceStep d i = Except.error PyErr.zeroDivisionError := by
  simp [deviceStep, runCall, h1, h2, h3, h4]

theorem stepEq_memFail (d : Driver) (i : Nat) (s : String)
    (h1 : d.deviceGetStatus i = CUDA_SUCCESS) (h2 : d.ctxCreateStatus i = CUDA_SUCCESS)
    (h3 : d.memStatus i ≠ CUDA_SUCCESS) (he : d.errorString (d.memStatus i) = some s) :
    deviceStep d i =
      Except.ok (false,
        [CudaCall.cuDeviceGet i, CudaCall.cuDeviceGet i, CudaCall.cuCtxCreate i,
         CudaCall.cuMemGetInfo i, CudaCall.cuGetErrorString (d.memStatus i)]) := by
  simp [deviceStep, runCall, h1, h2, h3, he]

theorem stepEq_memFailNoStr (d : Driver) (i : Nat)
    (h1 : d.deviceGetStatus i = CUDA_SUCCESS) (h2 : d.ctxCreateStatus i = CUDA_SUCCESS)
    (h3 : d.memStatus i ≠ CUDA_SUCCESS) (he : d.errorString (d.memStatus i) = none) :
    deviceStep d i = Except.error PyErr.attributeError := by
  simp [deviceStep, runCall, h1, h2, h3, he]

theorem stepEq_ctxFail (d : Driver) (i : Nat) (s : String)
    (h1 : d.deviceGetStatus i = CUDA_SUCCESS) (h2 : d.ctxCreateStatus i ≠ CUDA_SUCCESS)
    (he : d.errorString (d.ctxCreateStatus i) = some s) :
    deviceStep d i =
      Except.ok (false,
        [CudaCall.cuDeviceGet i, CudaCall.cuDeviceGet i, CudaCall.cuCtxCreate i,
         CudaCall.cuGetErrorString (d.ctxCreateStatus i)]) := by
  simp [deviceStep, runCall, h1, h2, he]

theorem stepEq_ctxFailNoStr (d : Driver) (i : Nat)
    (h1 : d.deviceGetStatus i = CUDA_SUCCESS) (h2 : d.ctxCreateStatus i ≠ CUDA_SUCCESS)
    (he : d.errorString (d.ctxCreateStatus i) = none) :
    deviceStep d i = Except.error PyErr.attributeError := by
  simp [deviceStep, runCall, h1, h2, he]

theorem stepEq_dgFail (d : Driver) (i : Nat) (s : String)
    (h1 : d.deviceGetStatus i ≠ CUDA_SUCCESS)
    (he : d.errorString (d.deviceGetStatus i) = some s) :
    deviceStep d i =
      Except.ok (false,
        [CudaCall.cuDeviceGet i, CudaCall.cuGetErrorString (d.deviceGetStatus i)]) := by
  simp [deviceStep, runCall, h1, he]

theorem stepEq_dgFailNoStr (d : Driver) (i : Nat)
    (h1 : d.deviceGetStatus i ≠ CUDA_SUCCESS)
    (he : d.errorString (d.deviceGetStatus i) = none) :
    deviceStep d i = Except.error PyErr.attributeError := by
  simp [deviceStep, runCall, h1, he]

theorem deviceStep_shape (d : Driver) (i : Nat) (b : Bool) (t : List CudaCall)
    (h : deviceStep d i = Except.ok (b, t)) :
    (d.deviceGetStatus i = CUDA_SUCCESS ∧ d.ctxCreateStatus i = CUDA_SUCCESS ∧
     d.memStatus i = CUDA_SUCCESS ∧ d.totalMem i ≠ 0 ∧
     b = decide (100 * d.freeMem i > 98 * d.totalMem i) ∧
     t = [CudaCall.cuDeviceGet i, CudaCall.cuDeviceGet i, CudaCall.cuCtxCreate i,
          CudaCall.cuMemGetInfo i, CudaCall.cuCtxDetach i]) ∨
    (b = false ∧
     ¬(d.deviceGetStatus i = CUDA_SUCCESS ∧ d.ctxCreateStatus i = CUDA_SUCCESS ∧
       d.memStatus i = CUDA_SUCCESS) ∧
     ∀ j, CudaCall.cuCtxDetach j ∉ t) := by
  by_cases h1 : d.deviceGetStatus i = CUDA_SUCCESS
  · by_cases h2 : d.ctxCreateStatus i = CUDA_SUCCESS
    · by_cases h3 : d.memStatus i = CUDA_SUCCESS
      · by_cases h4 : d.totalMem i = 0
        · rw [stepEq_zeroTotal d i h1 h2 h3 h4] at h
          simp at h
        · rw [stepEq_success d i h1 h2 h3 h4] at h
          simp only [Except.ok.injEq, Prod.mk.injEq] at h
          exact Or.inl ⟨h1, h2, h3, h4, h.1.symm, h.2.symm⟩
      · rcases he : d.errorString (d.memStatus i) with _ | s
        · rw [stepEq_memFailNoStr d i h1 h2 h3 he] at h
          simp at h
        · rw [stepEq_memFail d i s h1 h2 h3 he] at h
          simp only [Except.ok.injEq, Prod.mk.injEq] at h
          refine Or.inr ⟨h.1.symm, by simp [h3], ?_⟩
          intro j
          rw [← h.2]
          simp
    · rcases he : d.errorString (d.ctxCreateStatus i) with _ | s
      · rw [stepEq_ctxFailNoStr d i h1 h2 he] at h
        simp at h
      · rw [stepEq_ctxFail d i s h1 h2 he] at h
        simp only [Except.ok.injEq, Prod.mk.injEq] at h
        refine Or.inr ⟨h.1.symm, by simp [h2], ?_⟩
        intro j
        rw [← h.2]
        simp
  · rcases he : d.errorString (d.deviceGetStatus i) with _ | s
    · rw [stepEq_dgFailNoStr d i h1 he] at h
      simp at h
    · rw [stepEq_dgFail d i s h1 he] at h
      simp only [Except.ok.injEq, Prod.mk.injEq] at h
      refine Or.inr ⟨h.1.symm, by simp [h1], ?_⟩
      intro j
      rw [← h.2]
      simp

theorem appendedB_true_elim (d : Driver) (i : Nat) (h : appendedB d i = true) :
    d.deviceGetStatus i = CUDA_SUCCESS ∧ d.ctxCreateStatus i = CUDA_SUCCESS ∧
    d.memStatus i = CUDA_SUCCESS ∧ d.totalMem i ≠ 0 ∧
    98 * d.totalMem i < 100 * d.freeMem i := by
  unfold appendedB at h
  cases hs : deviceStep d i with
  | error e => rw [hs] at h; simp at h
  | ok p =>
    obtain ⟨b, t⟩ := p
    rw [hs] at h
    simp at h
    subst h
    rcases deviceStep_shape d i true t hs with ⟨g1, g2, g3, g4, g5, -⟩ | ⟨g1, -, -⟩
    · refine ⟨g1, g2, g3, g4, ?_⟩
      have := g5.symm
      simpa using this
    · simp at g1

theorem appendedB_false_of_fail (d : Driver) (i : Nat)
    (hfail : d.deviceGetStatus i ≠ CUDA_SUCCESS ∨ d.ctxCreateStatus i ≠ CUDA_SUCCESS ∨
      d.memStatus i ≠ CUDA_SUCCESS) :
    appendedB d i = false := by
  cases hb : appendedB d i with
  | false => rfl
  | true =>
    rcases appendedB_true_elim d i hb with ⟨g1, g2, g3, -, -⟩
    rcases hfail with hf | hf | hf <;> exact absurd (by assumption) hf

theorem appendedB_congr (d d' : Driver) (i : Nat)
    (hdg : d'.deviceGetStatus i = d.deviceGetStatus i)
    (hcc : d'.ctxCreateStatus i = d.ctxCreateStatus i)
    (hms : d'.memStatus i = d.memStatus i)
    (hfm : d'.freeMem i = d.freeMem i)
    (htm : d'.totalMem i = d.totalMem i)
    (herr : d'.errorString = d.errorString) :
    appendedB d' i = appendedB d i := by
  unfold appendedB deviceStep runCall
  rw [hdg, hcc, hms, hfm, htm, herr]

theorem deviceLoop_filter (d : Driver) (l : List Nat) (r : List Nat) (t : List CudaCall)
    (h : deviceLoop d l = Except.ok (r, t)) :
    r = l.filter (fun i => appendedB d i) := by
  induction l generalizing r t with
  | nil =>
    simp [deviceLoop] at h
    simp [h.1]
  | cons j rest ih =>
    cases hs : deviceStep d j with
    | error e => simp [deviceLoop, hs] at h
    | ok p =>
      obtain ⟨b, tj⟩ := p
      cases hdl : deviceLoop d rest with
      | error e => simp [deviceLoop, hs, hdl] at h
      | ok q =>
        obtain ⟨r', t'⟩ := q
        simp [deviceLoop, hs, hdl] at h
        have hb : appendedB d j = b := by unfold appendedB; rw [hs]
        have hr := ih r' t' hdl
        obtain ⟨h1, h2⟩ := h
        subst h1
        rw [List.filter_cons, hb, ← hr]

theorem deviceLoop_detach (d : Driver) (l : List Nat) (r : List Nat) (t : List CudaCall)
    (i : Nat) (h : deviceLoop d l = Except.ok (r, t)) :
    (CudaCall.cuCtxDetach i ∈ t ↔
      (i ∈ l ∧ d.deviceGetStatus i = CUDA_SUCCESS ∧
       d.ctxCreateStatus i = CUDA_SUCCESS ∧ d.memStatus i = CUDA_SUCCESS)) := by
  induction l generalizing r t with
  | nil =>
    simp [deviceLoop] at h
    simp [h.2]
  | cons j rest ih =>
    cases hs : deviceStep d j with
    | error e => simp [deviceLoop, hs] at h
    | ok p =>
      obtain ⟨b, tj⟩ := p
      cases hdl : deviceLoop d rest with
      | error e => simp [deviceLoop, hs, hdl] at h
      | ok q =>
        obtain ⟨r', t'⟩ := q
        simp [deviceLoop, hs, hdl] at h
        rw [← h.2, List.mem_append]
        by_cases hij : i = j
        · subst hij
          rcases deviceStep_shape d i b tj hs with ⟨g1, g2, g3, -, -, g6⟩ | ⟨-, gfail, gno⟩
          · subst g6
            simp [g1, g2, g3]
          · constructor
            · rintro (hin | hin)
              · exact absurd hin (gno i)
              · exact absurd ((ih r' t' hdl).mp hin).2 gfail
            · rintro ⟨-, hst⟩
              exact absurd hst gfail
        · constructor
          · rintro (hin | hin)
            · rcases deviceStep_shape d j b tj hs with ⟨-, -, -, -, -, g6⟩ | ⟨-, -, gno⟩
              · subst g6
                simp at hin
                exact absurd hin hij
              · exact absurd hin (gno i)
            · rcases (ih r' t' hdl).mp hin with ⟨hmem, hst⟩
              exact ⟨List.mem_cons_of_mem _ hmem, hst⟩
          · rintro ⟨hmem, hst⟩
            rcases List.mem_cons.mp hmem with rfl | hmem'
            · exact absurd rfl hij
            · exact Or.inr ((ih r' t' hdl).mpr ⟨hmem', hst⟩)

theorem deviceStep_total (d : Driver) (i : Nat)
    (hstr : ∀ s, s ≠ CUDA_SUCCESS → d.errorString s ≠ none)
    (htot : d.memStatus i = CUDA_SUCCESS → d.totalMem i ≠ 0) :
    ∃ b t, deviceStep d i = Except.ok (b, t) := by
  by_cases h1 : d.deviceGetStatus i = CUDA_SUCCESS
  · by_cases h2 : d.ctxCreateStatus i = CUDA_SUCCESS
    · by_cases h3 : d.memStatus i = CUDA_SUCCESS
      · exact ⟨_, _, stepEq_success d i h1 h2 h3 (htot h3)⟩
      · rcases he : d.errorString (d.memStatus i) with _ | s
        · exact absurd he (hstr _ h3)
        · exact ⟨_, _, stepEq_memFail d i s h1 h2 h3 he⟩
    · rcases he : d.errorString (d.ctxCreateStatus i) with _ | s
      · exact absurd he (hstr _ h2)
      · exact ⟨_, _, stepEq_ctxFail d i s h1 h2 he⟩
  · rcases he : d.errorString (d.deviceGetStatus i) with _ | s
    · exact absurd he (hstr _ h1)
    · exact ⟨_, _, stepEq_dgFail d i s h1 he⟩

theorem deviceLoop_total (d : Driver) (l : List Nat)
    (hstr : ∀ s, s ≠ CUDA_SUCCESS → d.errorString s ≠ none)
    (htot : ∀ i ∈ l, d.memStatus i = CUDA_SUCCESS → d.totalMem i ≠ 0) :
    ∃ r t, deviceLoop d l = Except.ok (r, t) := by
  induction l with
  | nil => exact ⟨[], [], rfl⟩
  | cons j rest ih =>
    obtain ⟨b, tj, hs⟩ := deviceStep_total d j hstr (htot j (List.mem_cons_self j rest))
    obtain ⟨r, t, hdl⟩ := ih (fun i hi => htot i (List.mem_cons_of_mem j hi))
    exact ⟨(if b then j :: r else r), tj ++ t, by simp [deviceLoop, hs, hdl]⟩

theorem cuda_devices_cases (d : Driver) (r : List Nat) (t : List CudaCall)
    (h : cuda_devices d = Except.ok (r, t)) :
    (cudaLibNames.any d.loads = false ∧ r = [] ∧ t = []) ∨
    (cudaLibNames.any d.loads = true ∧ d.countStatus ≠ CUDA_SUCCESS ∧ r = []) ∨
    (cudaLibNames.any d.loads = true ∧ d.countStatus = CUDA_SUCCESS ∧
      r = (List.range d.count).filter (fun i => appendedB d i) ∧
      ∃ tl, deviceLoop d (List.range d.count) = Except.ok (r, tl) ∧
        t = CudaCall.cuInit :: CudaCall.cuDeviceGetCount :: tl) := by
  by_cases hl : cudaLibNames.any d.loads = false
  · left
    simp [cuda_devices, hl] at h
    exact ⟨hl, h.1, h.2⟩
  · have hl' : cudaLibNames.any d.loads = true := by
      cases hb : cudaLibNames.any d.loads
      · exact absurd hb hl
      · rfl
    by_cases hc : d.countStatus = CUDA_SUCCESS
    · right; right
      cases hdl : deviceLoop d (List.range d.count) with
      | error e => simp [cuda_devices, hl', runCall, hc, hdl] at h
      | ok q =>
        obtain ⟨r0, tl⟩ := q
        simp [cuda_devices, hl', runCall, hc, hdl] at h
        obtain ⟨h1, h2⟩ := h
        subst h1
        exact ⟨hl', hc, deviceLoop_filter d _ _ _ hdl, tl, rfl, h2.symm⟩
    · right; left
      rcases he : d.errorString d.countStatus with _ | s
      · simp [cuda_devices, hl', runCall, hc, he] at h
      · simp [cuda_devices, hl', runCall, hc, he] at h
        exact ⟨hl', hc, h.1⟩

theorem cuda_devices_result (d : Driver) (r : List Nat) (t : List CudaCall)
    (h : cuda_devices d = Except.ok (r, t)) :
    r = if cudaLibNames.any d.loads = false then []
        else if d.countStatus = CUDA_SUCCESS then
          (List.range d.count).filter (fun i => appendedB d i)
        else [] := by
  rcases cuda_devices_cases d r t h with ⟨hl, hr, -⟩ | ⟨hl, hc, hr⟩ | ⟨hl, hc, hr, -⟩
  · rw [if_pos hl]; exact hr
  · rw [if_neg (by simp [hl]), if_neg hc]; exact hr
  · rw [if_neg (by simp [hl]), if_pos hc]; exact hr

/-- C1: every device index in the sequence returned by cuda_devices
satisfies free_memory / total_memory > 0.98, the boundary value exactly
0.98 excluded; no index with ratio at or below 0.98 ever appears. -/
theorem cuda_devices_threshold (d : Driver) (r : List Nat) (t : List CudaCall) (i : Nat)
    (h : cuda_devices d = Except.ok (r, t)) (hi : i ∈ r) :
    98 * d.totalMem i < 100 * d.freeMem i ∧
    (98 : ℚ) / 100 < (d.freeMem i : ℚ) / (d.totalMem i : ℚ) := by
  have happ : appendedB d i = true := by
    rcases cuda_devices_cases d r t h with ⟨-, hr, -⟩ | ⟨-, -, hr⟩ | ⟨-, -, hr, -⟩
    · subst hr; simp at hi
    · subst hr; simp at hi
    · subst hr; exact (List.mem_filter.mp hi).2
  rcases appendedB_true_elim d i happ with ⟨-, -, -, htot, hlt⟩
  refine ⟨hlt, ?_⟩
  have htq : (0 : ℚ) < (d.totalMem i : ℚ) := by exact_mod_cast Nat.pos_of_ne_zero htot
  rw [div_lt_div_iff₀ (by norm_num) htq]
  have hq : ((98 * d.totalMem i : ℕ) : ℚ) < ((100 * d.freeMem i : ℕ) : ℚ) :=
    Nat.cast_lt.mpr hlt
  push_cast at hq
  linarith

theorem cuda_devices_threshold_witness :
    98 * dGood.totalMem 0 < 100 * dGood.freeMem 0 ∧
    (98 : ℚ) / 100 < (dGood.freeMem 0 : ℚ) / (dGood.totalMem 0 : ℚ) :=
  cuda_devices_threshold dGood [0, 3] traceGood 0 rfl (by decide)

/-- C2: evidence against the claim.  With a driver whose cuInit reports
status 1 while every later call succeeds and the single device
qualifies, cuda_devices returns the non-empty list [0] and never looks
up (hence never logs) the cuInit error code: the source stores cuInit's
status in a variable that the run helper shadows before reading. -/
theorem cuda_devices_ignores_init_status :
    dInitFail.initStatus ≠ CUDA_SUCCESS ∧
    cuda_devices dInitFail = Except.ok ([0], traceInitFail) ∧
    CudaCall.cuGetErrorString dInitFail.initStatus ∉ traceInitFail :=
  ⟨by decide, rfl, by decide⟩

/-- C3: if a per-device step (handle lookup, context creation or memory
query) fails for device k while the scan otherwise completes, k is
absent from the result, and the membership of every other device is the
same as with a driver that agrees on everything except device k. -/
theorem cuda_devices_failure_isolated
    (d d' : Driver) (k : Nat) (r r' : List Nat) (t t' : List CudaCall)
    (h : cuda_devices d = Except.ok (r, t))
    (h' : cuda_devices d' = Except.ok (r', t'))
    (hloads : d'.loads = d.loads) (hcs : d'.countStatus = d.countStatus)
    (hcount : d'.count = d.count)
    (hagree : ∀ j, j ≠ k →
      d'.deviceGetStatus j = d.deviceGetStatus j ∧
      d'.ctxCreateStatus j = d.ctxCreateStatus j ∧
      d'.memStatus j = d.memStatus j ∧
      d'.freeMem j = d.freeMem j ∧ d'.totalMem j = d.totalMem j)
    (herr : d'.errorString = d.errorString)
    (hfail : d'.deviceGetStatus k ≠ CUDA_SUCCESS ∨
      d'.ctxCreateStatus k ≠ CUDA_SUCCESS ∨ d'.memStatus k ≠ CUDA_SUCCESS) :
    k ∉ r' ∧ ∀ j, j ≠ k → (j ∈ r' ↔ j ∈ r) := by
  have hk : appendedB d' k = false := appendedB_false_of_fail d' k hfail
  have hrr := cuda_devices_result d r t h
  have hrr' := cuda_devices_result d' r' t' h'
  rw [hloads, hcs, hcount] at hrr'
  constructor
  · subst hrr'
    by_cases hl : cudaLibNames.any d.loads = false
    · simp [hl]
    · by_cases hc : d.countStatus = CUDA_SUCCESS
      · simp [hl, hc, List.mem_filter, hk]
      · simp [hl, hc]
  · intro j hj
    subst hrr
    subst hrr'
    by_cases hl : cudaLibNames.any d.loads = false
    · simp [hl]
    · by_cases hc : d.countStatus = CUDA_SUCCESS
      · obtain ⟨a1, a2, a3, a4, a5⟩ := hagree j hj
        simp only [if_neg hl, if_pos hc, List.mem_filter]
        rw [appendedB_congr d d' j a1 a2 a3 a4 a5 herr]
      · simp [hl, hc]

theorem cuda_devices_failure_isolated_witness :
    (1 : Nat) ∉ ([0, 2] : List Nat) ∧
    ((0 : Nat) ∈ ([0, 2] : List Nat) ↔ (0 : Nat) ∈ ([0, 1, 2] : List Nat)) ∧
    ((2 : Nat) ∈ ([0, 2] : List Nat) ↔ (2 : Nat) ∈ ([0, 1, 2] : List Nat)) := by
  have H := cuda_devices_failure_isolated dAll3 dFail1 1 [0, 1, 2] [0, 2]
    traceAll3 traceFail1 rfl rfl rfl rfl rfl
    (fun j hj => ⟨rfl, rfl, by simp [dAll3, dFail1, hj], rfl, rfl⟩)
    rfl (by decide)
  exact ⟨H.1, H.2 0 (by decide), H.2 2 (by decide)⟩

/-- C4: evidence against the claim.  A driver response sequence in which
the single device's memory query succeeds but reports total_memory = 0
makes cuda_devices raise ZeroDivisionError instead of returning. -/
theorem cuda_devices_raises_on_zero_total :
    cuda_devices dZero = Except.error PyErr.zeroDivisionError := rfl

/-- C4 (amended): cuda_devices raises no exception provided the driver
reports a nonzero total memory on every successful per-device memory
query and provides an error string for every non-success status code;
under those conditions it always returns a (possibly empty) list. -/
theorem cuda_devices_no_exception (d : Driver)
    (hstr : ∀ s, s ≠ CUDA_SUCCESS → d.errorString s ≠ none)
    (htot : ∀ i, i < d.count → d.memStatus i = CUDA_SUCCESS → d.totalMem i ≠ 0) :
    ∃ r t, cuda_devices d = Except.ok (r, t) := by
  by_cases hl : cudaLibNames.any d.loads = false
  · exact ⟨[], [], by simp [cuda_devices, hl]⟩
  · have hl' : cudaLibNames.any d.loads = true := by
      cases hb : cudaLibNames.any d.loads
      · exact absurd hb hl
      · rfl
    by_cases hc : d.countStatus = CUDA_SUCCESS
    · obtain ⟨r, t, hdl⟩ := deviceLoop_total d (List.range d.count) hstr
        (fun i hi => htot i (List.mem_range.mp hi))
      exact ⟨r, CudaCall.cuInit :: CudaCall.cuDeviceGetCount :: t,
        by simp [cuda_devices, hl', runCall, hc, hdl]⟩
    · rcases he : d.errorString d.countStatus with _ | s
      · exact absurd he (hstr _ hc)
      · exact ⟨[], [CudaCall.cuInit, CudaCall.cuDeviceGetCount,
          CudaCall.cuGetErrorString d.countStatus],
          by simp [cuda_devices, hl', runCall, hc, he]⟩

theorem cuda_devices_no_exception_witness :
    ∃ r t, cuda_devices dGood = Except.ok (r, t) :=
  cuda_devices_no_exception dGood (fun s hs => by simp [dGood])
    (fun i hi hm => by simp [dGood])

/-- C5: evidence against the claim.  For a device whose context creation
succeeds but whose memory query fails, the iteration takes the failure
path and never calls cuCtxDetach: the context is created but not
released before the loop moves on. -/
theorem cuda_devices_context_leak :
    cuda_devices dLeak = Except.ok ([], traceLeak) ∧
    CudaCall.cuCtxCreate 0 ∈ traceLeak ∧
    CudaCall.cuCtxDetach 0 ∉ traceLeak :=
  ⟨rfl, by decide, by decide⟩

/-- C5 (amended): for every scanned device, the per-device context is
detached if and only if the handle lookup, the context creation and the
memory query all succeed; on every failure path the iteration continues
without detaching. -/
theorem cuda_devices_detach_iff (d : Driver) (r : List Nat) (t : List CudaCall) (i : Nat)
    (h : cuda_devices d = Except.ok (r, t))
    (hlib : cudaLibNames.any d.loads = true)
    (hcs : d.countStatus = CUDA_SUCCESS)
    (hi : i < d.count) :
    (CudaCall.cuCtxDetach i ∈ t ↔
      (d.deviceGetStatus i = CUDA_SUCCESS ∧ d.ctxCreateStatus i = CUDA_SUCCESS ∧
       d.memStatus i = CUDA_SUCCESS)) := by
  rcases cuda_devices_cases d r t h with ⟨hl, -, -⟩ | ⟨-, hc, -⟩ | ⟨-, -, -, htl⟩
  · rw [hlib] at hl; cases hl
  · exact absurd hcs hc
  · obtain ⟨tl, hdl, ht⟩ := htl
    subst ht
    rw [List.mem_cons, List.mem_cons,
      deviceLoop_detach d (List.range d.count) r tl i hdl]
    simp [List.mem_range, hi]

theorem cuda_devices_detach_iff_witness :
    CudaCall.cuCtxDetach 0 ∈ traceGood :=
  (cuda_devices_detach_iff dGood [0, 3] traceGood 0 rfl rfl rfl (by decide)).mpr
    ⟨rfl, rfl, rfl⟩

/-- C6: the memoized wrapper returns the computed result on the first
call, and on every subsequent call returns the identical result with no
native driver call made. -/
theorem callMemo_memoizes (d : Driver) (r : List Nat) (t : List CudaCall)
    (h : cuda_devices d = Except.ok (r, t)) :
    callMemo none d = (Except.ok r, some r, t) ∧
    callMemo (some r) d = (Except.ok r, some r, []) := by
  constructor
  · simp [callMemo, h]
  · simp [callMemo]

theorem callMemo_memoizes_witness :
    callMemo none dGood = (Except.ok [0, 3], some [0, 3], traceGood) ∧
    callMemo (some [0, 3]) dGood = (Except.ok [0, 3], some [0, 3], []) :=
  callMemo_memoizes dGood [0, 3] traceGood rfl

/-- C7: the sequence returned by cuda_devices is in strictly ascending
order, matching the native enumeration indices. -/
theorem cuda_devices_ascending (d : Driver) (r : List Nat) (t : List CudaCall)
    (h : cuda_devices d = Except.ok (r, t)) : r.Pairwise (· < ·) := by
  rw [cuda_devices_result d r t h]
  by_cases hl : cudaLibNames.any d.loads = false
  · simp [hl]
  · by_cases hc : d.countStatus = CUDA_SUCCESS
    · simp only [if_neg hl, if_pos hc]
      exact (List.pairwise_lt_range d.count).sublist (List.filter_sublist _)
    · simp [hl, hc]

theorem cuda_devices_ascending_witness :
    cuda_devices dGood = Except.ok ([0, 3], traceGood) ∧
    ([0, 3] : List Nat).Pairwise (· < ·) :=
  ⟨rfl, cuda_devices_ascending dGood [0, 3] traceGood rfl⟩

/-- C8: if none of the three fixed candidate library names loads,
cuda_devices returns the empty sequence with an empty native-call
trace: no init, no count query, no per-device call. -/
theorem cuda_devices_no_library (d : Driver)
    (h : ∀ name ∈ cudaLibNames, d.loads name = false) :
    cuda_devices d = Except.ok ([], []) := by
  have hl : cudaLibNames.any d.loads = false := by
    simp only [List.any_eq_false]
    intro a ha
    simp [h a ha]
  simp [cuda_devices, hl]

theorem cuda_devices_no_library_witness :
    cuda_devices dNoLib = Except.ok ([], []) :=
  cuda_devices_no_library dNoLib (by decide)

/-- C9: the tokenize callable installed by CharacterEncoder, applied to
any string, raises ValueError because the separator is empty; it never
returns a token list. -/
theorem characterEncoder_tokenize_raises (s : String) :
    characterEncoderTokenize s = Except.error PyErr.valueError ∧
    ∀ toks : List String, characterEncoderTokenize s ≠ Except.ok toks := by
  refine ⟨rfl, ?_⟩
  intro toks hcontra
  simp [characterEncoderTokenize, pySplit] at hcontra

theorem characterEncoder_tokenize_raises_witness :
    characterEncoderTokenize ("abc") = Except.error PyErr.valueError :=
  (characterEncoder_tokenize_raises "abc").1

theorem foldl_max_init_le (l : List Nat) (a : Nat) : a ≤ l.foldl max a := by
  induction l generalizing a with
  | nil => exact le_refl a
  | cons x xs ih => exact le_trans (le_max_left a x) (ih (max a x))

theorem foldl_max_mem_le (l : List Nat) : ∀ (a b : Nat), b ∈ l → b ≤ l.foldl max a := by
  induction l with
  | nil => intro a b hb; cases hb
  | cons x xs ih =>
    intro a b hb
    rcases List.mem_cons.mp hb with rfl | hmem
    · exact le_trans (le_max_right a b) (foldl_max_init_le xs (max a b))
    · exact ih (max a x) b hmem

theorem foldl_max_attained (l : List Nat) : ∀ a : Nat, l.foldl max a = a ∨ l.foldl max a ∈ l := by
  induction l with
  | nil => intro a; exact Or.inl rfl
  | cons x xs ih =>
    intro a
    have hfold : (x :: xs).foldl max a = xs.foldl max (max a x) := rfl
    rcases ih (max a x) with h | h
    · rcases Nat.le_total x a with hxa | hax
      · left
        rw [hfold, h]
        exact max_eq_left hxa
      · right
        rw [hfold, h, max_eq_right hax]
        exact List.mem_cons_self x xs
    · right
      rw [hfold]
      exact List.mem_cons_of_mem x h

/-- C10: for every non-empty batch, pad succeeds and returns (padded,
lengths) preserving the input order: maxLen is the maximum input length
(an input row's length that bounds every input row's length), entry i of
padded is row i followed by exactly maxLen - len(row i) copies of
PADDING_INDEX, every padded row has that maximum input length, and entry
i of lengths is the original length of row i. -/
theorem pad_correct (batch : List (List Int)) (hne : batch ≠ []) :
    ∃ padded lengths maxLen,
      pad batch = Except.ok (padded, lengths) ∧
      padded.length = batch.length ∧
      lengths.length = batch.length ∧
      maxLen ∈ batch.map List.length ∧
      (∀ len ∈ batch.map List.length, len ≤ maxLen) ∧
      (∀ (i : Nat) (row : List Int), batch[i]? = some row →
        lengths[i]? = some row.length ∧
        padded[i]? = some (row ++ List.replicate (maxLen - row.length) PADDING_INDEX)) ∧
      (∀ prow ∈ padded, prow.length = maxLen) := by
  cases batch with
  | nil => exact absurd rfl hne
  | cons b bs =>
    refine ⟨_, _, (bs.map List.length).foldl max b.length, rfl, by simp, by simp,
      ?_, ?_, ?_, ?_⟩
    · rcases foldl_max_attained (bs.map List.length) b.length with h | h
      · rw [List.map_cons, h]
        exact List.mem_cons_self _ _
      · rw [List.map_cons]
        exact List.mem_cons_of_mem _ h
    · intro len hlen
      rw [List.map_cons] at hlen
      rcases List.mem_cons.mp hlen with rfl | h
      · exact foldl_max_init_le _ _
      · exact foldl_max_mem_le _ _ _ h
    · intro i row hrow
      constructor
      · rw [List.getElem?_map, hrow]
        rfl
      · rw [List.getElem?_map, hrow]
        rfl
    · intro prow hmem
      rcases List.mem_map.mp hmem with ⟨row, hrowmem, rfl⟩
      have hle : row.length ≤ (bs.map List.length).foldl max b.length := by
        rcases List.mem_cons.mp hrowmem with rfl | hmem'
        · exact foldl_max_init_le _ _
        · exact foldl_max_mem_le _ _ _ (List.mem_map_of_mem List.length hmem')
      simp only [List.length_append, List.length_replicate]
      omega

theorem pad_correct_witness :
    ∃ padded lengths maxLen,
      pad [[5], [1, 2, 3], [7, 8]] = Except.ok (padded, lengths) ∧
      padded.length = ([[5], [1, 2, 3], [7, 8]] : List (List Int)).length ∧
      lengths.length = ([[5], [1, 2, 3], [7, 8]] : List (List Int)).length ∧
      maxLen ∈ ([[5], [1, 2, 3], [7, 8]] : List (List Int)).map List.length ∧
      (∀ len ∈ ([[5], [1, 2, 3], [7, 8]] : List (List Int)).map List.length, len ≤ maxLen) ∧
      (∀ (i : Nat) (row : List Int), ([[5], [1, 2, 3], [7, 8]] : List (List Int))[i]? = some row →
        lengths[i]? = some row.length ∧
        padded[i]? = some (row ++ List.replicate (maxLen - row.length) PADDING_INDEX)) ∧
      (∀ prow ∈ padded, prow.length = maxLen) :=
  pad_correct [[5], [1, 2, 3], [7, 8]] (by decide)
